import Mathlib

/-!
Verification of the namex Name Request state & action engine.

The definitions below are a shallow embedding of the Python source under
`src/api/namex/resources/` (name_request.py, requests.py,
payment_societies.py).  Pure control flow is translated directly;
database mutation is modelled by explicit state passing; raised
exceptions become `Except` errors that carry the aggregate as it stood
when the exception was raised.  External collaborators (payment gateway,
expiry-date service, transition policy) are passed in as oracle
parameters.  Helper functions that live in this repository but outside
the provided source slice (state constants, `is_request_editable`,
`update_nr`, the payment client) are modelled from the specification's
words; each such definition carries a doc comment saying so.

Money amounts are carried as natural numbers of cents; the source's
`'{:.2f}'.format` is modelled by `formatTwoDec`.
-/

namespace Namex

/-- Modelled from the spec: the closed set of Name Request states
(spec 4.1: DRAFT, COND_RESERVE, RESERVED, PENDING_PAYMENT, INPROGRESS,
HOLD, APPROVED, CONDITIONAL, REJECTED, CONSUMED, EXPIRED, CANCELLED,
REFUND_REQUESTED); the `State` constants module is not in the source
slice. -/
inductive StateCd where
  | DRAFT
  | COND_RESERVE
  | RESERVED
  | PENDING_PAYMENT
  | INPROGRESS
  | HOLD
  | APPROVED
  | CONDITIONAL
  | REJECTED
  | CONSUMED
  | EXPIRED
  | CANCELLED
  | REFUND_REQUESTED
  deriving DecidableEq, Repr

/-- Modelled from the spec: `State.VALID_STATES` (the closed enumerated
set of valid states, spec 3 and 4.1). -/
def VALID_STATES : List StateCd :=
  [.DRAFT, .COND_RESERVE, .RESERVED, .PENDING_PAYMENT, .INPROGRESS, .HOLD,
   .APPROVED, .CONDITIONAL, .REJECTED, .CONSUMED, .EXPIRED, .CANCELLED,
   .REFUND_REQUESTED]

/-- Modelled from the spec: `State.COMPLETED_STATE`, the completed-state
group {APPROVED, REJECTED, CONDITIONAL, CONSUMED, EXPIRED} (spec 4.1). -/
def COMPLETED_STATE : List StateCd :=
  [.APPROVED, .REJECTED, .CONDITIONAL, .CONSUMED, .EXPIRED]

/-- Modelled from the spec: `request_editable_states` from the
name_requests constants module (not in the source slice); spec 4.1/4.2
describes the request-editable states as the DRAFT-like starting states
DRAFT/COND_RESERVE/RESERVED/PENDING_PAYMENT. -/
def request_editable_states : List StateCd :=
  [.DRAFT, .COND_RESERVE, .RESERVED, .PENDING_PAYMENT]

/-- Modelled from the spec: `contact_editable_states` from the
name_requests constants module (not in the source slice); the decision
states in which only contact fields stay editable. -/
def contact_editable_states : List StateCd :=
  [.APPROVED, .CONDITIONAL]

/-- Modelled from the spec: `is_request_editable` from
`name_request_state` (spec 4.1 contract `isEditable`): membership in the
request-editable state set. -/
def is_request_editable (s : StateCd) : Bool :=
  decide (s ∈ request_editable_states)

/-- Modelled from the spec: `is_name_request_refundable` from
`name_request_state` (spec 4.1: REQUEST_REFUND is illegal unless the
current state is refundable, DRAFT only). -/
def is_name_request_refundable (s : StateCd) : Bool :=
  decide (s = StateCd.DRAFT)

/-- A payment row attached to a Name Request (spec 3 Payment): token,
status code and action are the fields the refund loop reads. -/
structure Payment where
  payment_token : Nat
  payment_status_code : String
  payment_action : String
  deriving DecidableEq, Repr

/-- The detail returned by the external payment gateway for one payment:
total charged (cents) and the receipt amounts (cents). -/
structure PaymentResponse where
  total : Nat
  receipts : List Nat
  deriving DecidableEq, Repr

/-- Modelled from the spec: the external payment gateway (spec 6):
`getPayment(token)` returns the payment detail; `refundPayment(token,
payload)` issues a refund and reports success or failure in its result
(spec 4.5: a refund call failure is reported per payment and never
aborts the caller). -/
structure PayOracle where
  getPayment : Nat → PaymentResponse
  refundPayment : Nat → Bool

/-- The payment states eligible for a refund in
`handle_patch_request_refund`: APPROVED, COMPLETED, PARTIAL. -/
def refund_valid_states : List String :=
  ["APPROVED", "COMPLETED", "PARTIAL"]

/-- Models Python `'{:.2f}'.format` applied to an amount held in cents:
dollars, a dot, then exactly two digits of cents. -/
def formatTwoDec (cents : Nat) : String :=
  let r := cents % 100
  toString (cents / 100) ++ "." ++ (if r < 10 then "0" else "") ++ toString r

/-- The outcome of the refund loop: the payment rows after the loop, the
accumulated refund value, and traces of which tokens were fetched from
the gateway and for which tokens a refund call was issued. -/
structure RefundLoopOut where
  payments : List Payment
  refundValue : Nat
  fetched : List Nat
  refunds : List Nat
  deriving DecidableEq, Repr

/-- The refund loop of `handle_patch_request_refund`
(name_request.py lines 412-425): for each payment whose status is in
`refund_valid_states`, fetch its detail, issue a refund call when the
total is nonzero (the call's outcome is not inspected), mark the row
REFUND_REQUESTED, and accumulate the first receipt amount (0 when there
is no receipt).  Other payments pass through untouched. -/
def refundLoop (po : PayOracle) : List Payment → RefundLoopOut
  | [] => ⟨[], 0, [], []⟩
  | p :: ps =>
    if p.payment_status_code ∈ refund_valid_states then
      let resp := po.getPayment p.payment_token
      let p' := { p with payment_status_code := "REFUND_REQUESTED" }
      let amt := match resp.receipts with
        | [] => 0
        | a :: _ => a
      let rest := refundLoop po ps
      ⟨p' :: rest.payments, amt + rest.refundValue,
        p.payment_token :: rest.fetched,
        (if resp.total ≠ 0 then [p.payment_token] else []) ++ rest.refunds⟩
    else
      let rest := refundLoop po ps
      ⟨p :: rest.payments, rest.refundValue, rest.fetched, rest.refunds⟩

/-- The Name Request aggregate as the name_requests resource reads it:
only the fields this resource's control flow touches are carried. -/
structure NRModel where
  id : Nat
  nrNum : String
  stateCd : StateCd
  checkedOutBy : Option String
  checkedOutDt : Option Nat
  userId : Nat
  furnished : String
  payments : List Payment
  deriving DecidableEq, Repr

/-- The `request_data` dict handed to the service: a field that is
`none` is absent from the dict; `some none` is present with value null
(the CHECKIN payload writes explicit nulls). -/
structure RequestData where
  checkedOutBy : Option (Option String) := none
  checkedOutDt : Option (Option Nat) := none
  stateCd : Option StateCd := none
  deriving DecidableEq, Repr

/-- The JSON body of a PATCH/PUT call, restricted to the keys this
resource's control flow reads (`request_json.get` conflates an absent
key with an explicit null, so `Option` suffices here). -/
structure PatchPayload where
  stateCd : Option StateCd := none
  checkedOutBy : Option String := none
  deriving DecidableEq, Repr

/-- Lift a JSON payload to the `request_data` applied by the service
(`super().initialize()` stores the body as-is). -/
def PatchPayload.toRequestData (p : PatchPayload) : RequestData :=
  { checkedOutBy := p.checkedOutBy.map some, checkedOutDt := none,
    stateCd := p.stateCd }

/-- Modelled from the spec: `update_nr` with `handle_nr_patch` /
`handle_nr_update` from the base resource (not in the source slice).
Spec 4.3: a partial edit updates only the fields present in the data and
never clears fields by omission; spec 4.1: entering INPROGRESS from any
other state resets furnished to N; the state code is set to the target
state. -/
def update_nr (nr : NRModel) (newState : StateCd) (data : RequestData) : NRModel :=
  let co := data.checkedOutBy.getD nr.checkedOutBy
  let cd := data.checkedOutDt.getD nr.checkedOutDt
  let furn := if nr.stateCd ≠ StateCd.INPROGRESS ∧ newState = StateCd.INPROGRESS
    then "N" else nr.furnished
  { nr with
    checkedOutBy := co,
    checkedOutDt := cd,
    stateCd := newState,
    furnished := furn }

/-- Errors surfaced by the name_requests resource:
`NameRequestIsInProgressError` maps to HTTP 423, `InvalidInputError` to a
validation rejection. -/
inductive PatchError where
  | inProgressLocked
  | invalidInput
  deriving DecidableEq, Repr

/-- The `NameRequestPatchActions` value set (the enum module is outside
the source slice; the member list is fixed by the spec and by the
dispatch table in name_request.py lines 276-283). -/
def name_request_patch_actions : List String :=
  ["CHECKOUT", "CHECKIN", "EDIT", "CANCEL", "RESEND", "REQUEST_REFUND"]

/-- `NameRequestPatchActions.has_value`. -/
def patch_actions_has_value (a : String) : Bool :=
  decide (a ∈ name_request_patch_actions)

/-- Models Python `str.upper()` on the action token: upper-case every
character. -/
def pyUpper (s : String) : String :=
  String.mk (s.data.map Char.toUpper)

/-- The action normalisation at the top of `NameRequestFields.patch`
(lines 180-187): upper-case the path token, then replace it by the EDIT
action when it is not a known enum value. -/
def mapPatchAction (raw : String) : String :=
  let u := pyUpper raw
  if patch_actions_has_value u then u else "EDIT"

/-- `validate_patch_request` (lines 241-267): the request state (payload
state, defaulting to the model state) must be request-editable or
contact-editable, and the (already normalised) action must be a known
enum value. -/
def validate_patch_request (action : String) (dataState : Option StateCd)
    (modelState : StateCd) : Bool :=
  let request_state := dataState.getD modelState
  (decide (request_state ∈ request_editable_states) ||
    decide (request_state ∈ contact_editable_states)) &&
  patch_actions_has_value action

/-- The observable outcome of a successful PATCH: the saved aggregate,
the notifications published (nrNum, kind, detail), the tokens fetched
from and refunded at the payment gateway, and the recorded event verb. -/
structure NrPatchOut where
  nr : NRModel
  notifications : List (String × String × String) := []
  fetched : List Nat := []
  refunds : List Nat := []
  event : String
  deriving DecidableEq, Repr

/-- `handle_patch_request_refund` (lines 390-435): move the NR to
REFUND_REQUESTED; when no payment has action REAPPLY run the refund loop
over all payments, otherwise touch none of them; always publish exactly
one refund notification carrying the accumulated value formatted to two
decimals; record the event. -/
def handle_patch_request_refund (po : PayOracle) (data : RequestData)
    (nr0 : NRModel) : NrPatchOut :=
  let nr := update_nr nr0 StateCd.REFUND_REQUESTED data
  let renewed := nr.payments.any (fun p => p.payment_action == "REAPPLY")
  let res := if renewed then RefundLoopOut.mk nr.payments 0 [] []
    else refundLoop po nr.payments
  { nr := { nr with payments := res.payments },
    notifications := [(nr.nrNum, "refund", formatTwoDec res.refundValue)],
    fetched := res.fetched,
    refunds := res.refunds,
    event := "PATCH [request-refund]" }

/-- The `handle_patch_actions` dispatch table (lines 275-286) together
with the individual handlers (lines 324-435): each handler applies
`update_nr` toward its target state and records its event. -/
def nr_patch_dispatch (action : String) (data : RequestData) (po : PayOracle)
    (nr : NRModel) : NrPatchOut :=
  if action = "CHECKOUT" then
    { nr := update_nr nr StateCd.INPROGRESS data, event := "PATCH [checkout]" }
  else if action = "CHECKIN" then
    { nr := update_nr nr StateCd.DRAFT data, event := "PATCH [checkin]" }
  else if action = "EDIT" then
    { nr := update_nr nr nr.stateCd data, event := "PATCH [edit]" }
  else if action = "CANCEL" then
    { nr := update_nr nr StateCd.CANCELLED data, event := "PATCH [cancel]" }
  else if action = "RESEND" then
    { nr := update_nr nr nr.stateCd data, event := "PATCH [re-send]" }
  else
    handle_patch_request_refund po data nr

/-- `NameRequestFields.patch` (lines 175-322).  The inner per-action
setup (lines 192-234) runs first: CHECKOUT checks the lock (free lock
requires a request-editable state; a held lock requires the payload to
present the matching token) before reassigning ownership to the service
account and minting a fresh token; CHECKIN writes explicit nulls;
REQUEST_REFUND requires a refundable state; every other action stores
the JSON body.  Then `validate_patch_request` runs, and on success the
action handler produces the outcome.  A raised error carries the
aggregate exactly as it stood when the exception was raised. -/
def nrPatch (rawAction : String) (payload : PatchPayload) (freshToken : String)
    (now : Nat) (svcAccountId : Nat) (po : PayOracle) (nr0 : NRModel) :
    Except (PatchError × NRModel) NrPatchOut :=
  let action := mapPatchAction rawAction
  let setup : Except (PatchError × NRModel) (NRModel × RequestData) :=
    if action = "CHECKOUT" then
      match nr0.checkedOutBy with
      | none =>
        if !(is_request_editable nr0.stateCd) then
          Except.error (PatchError.inProgressLocked, nr0)
        else
          Except.ok ({ nr0 with userId := svcAccountId },
            { checkedOutBy := some (some freshToken),
              checkedOutDt := some (some now), stateCd := none })
      | some tok =>
        if some tok ≠ payload.checkedOutBy then
          Except.error (PatchError.inProgressLocked, nr0)
        else
          Except.ok ({ nr0 with userId := svcAccountId },
            { checkedOutBy := some (some freshToken),
              checkedOutDt := some (some now), stateCd := none })
    else if action = "CHECKIN" then
      Except.ok (nr0,
        { checkedOutBy := some none,
          checkedOutDt := some none,
          stateCd := none })
    else if action = "REQUEST_REFUND" && !(is_name_request_refundable nr0.stateCd) then
      Except.error (PatchError.inProgressLocked, nr0)
    else
      Except.ok (nr0, payload.toRequestData)
  match setup with
  | Except.error e => Except.error e
  | Except.ok (nr, data) =>
    if !(validate_patch_request action data.stateCd nr.stateCd) then
      Except.error (PatchError.invalidInput, nr)
    else
      Except.ok (nr_patch_dispatch action data po nr)

/-- The `valid_update_states` list of `NameRequestResource.put`
(line 114). -/
def valid_update_states : List StateCd :=
  [.DRAFT, .COND_RESERVE, .RESERVED, .PENDING_PAYMENT]

/-- `NameRequestResource.put` (lines 100-145): `validate_put_request`
accepts only payloads whose stateCd is in `valid_update_states` (an
absent payload state is rejected, since None is not in the list);
failure raises `InvalidInputError`.  The persisted aggregate is then
updated only when its own state is in `valid_update_states`; otherwise
the call still returns success with the aggregate untouched.  The Bool
in the result records whether `update_nr` ran. -/
def nrPut (payload : PatchPayload) (nr : NRModel) :
    Except (PatchError × NRModel) (NRModel × Bool) :=
  let is_valid_put := match payload.stateCd with
    | some s => decide (s ∈ valid_update_states)
    | none => false
  if !is_valid_put then
    Except.error (PatchError.invalidInput, nr)
  else if nr.stateCd ∈ valid_update_states then
    Except.ok (update_nr nr nr.stateCd payload.toRequestData, true)
  else
    Except.ok (nr, false)

/-- A ranked name choice under a Name Request (spec 3 NameChoice),
restricted to the fields `Request.patch`/`Request.put` read. -/
structure NameChoice where
  choice : Nat
  name : String
  state : String
  consumptionDate : Option Nat
  corpNum : Option String
  deriving DecidableEq, Repr

/-- The Name Request aggregate as the requests resource reads it:
only the fields its control flow touches are carried. -/
structure NRD where
  nrNum : String
  stateCd : StateCd
  previousStateCd : Option StateCd
  furnished : String
  expirationDate : Option Nat
  consentFlag : Option String
  hasBeenReset : Bool
  userId : Nat
  names : List NameChoice
  deriving DecidableEq, Repr

/-- The JSON body of `Request.patch`, restricted to the keys its control
flow reads.  `previousStateCd` keeps the three-state distinction the
source makes (`'previousStateCd' in json_input.keys()`): `none` means
the key is absent, `some v` means the key is present with value `v`
(possibly null). -/
structure RPatchInput where
  state : Option StateCd := none
  previousStateCd : Option (Option StateCd) := none
  corpNum : Option String := none
  deriving DecidableEq, Repr

/-- An error response of the requests resource, carrying the HTTP code,
the message, and the aggregate and demoted sibling as they stood when
the response was returned (in-memory only: `save_to_db` on the aggregate
was not reached). -/
structure RPatchErr where
  code : Nat
  msg : String
  nrd : NRD
  demoted : Option NRD
  deriving DecidableEq, Repr

/-- A successful response of the requests resource: the saved aggregate,
the demoted sibling (saved when present), and the notification published
for decision states. -/
structure RPatchOk where
  nrd : NRD
  demoted : Option NRD := none
  notified : Option (String × StateCd) := none
  deriving DecidableEq, Repr

/-- The name-choice states `Name.APPROVED` / `Name.CONDITION` that make
a choice consumable (requests.py line 908; the Name constants module is
outside the source slice, the member names are fixed by the source). -/
def consumable_name_states : List String :=
  ["APPROVED", "CONDITION"]

/-- `consumeName` (requests.py lines 902-916): fail when the payload has
no (or an empty, hence falsy) corpNum; otherwise stamp every name choice
currently APPROVED or CONDITION with the consumption date and the
payload corpNum; fail when no choice was eligible. -/
def consumeName (nowConsume : Nat) (corpNum : Option String)
    (names : List NameChoice) : Except String (List NameChoice) :=
  if corpNum = none ∨ corpNum = some "" then
    Except.error "corpNum is required and cannot be empty."
  else
    let names' := names.map (fun n =>
      if n.state ∈ consumable_name_states then
        { n with consumptionDate := some nowConsume, corpNum := corpNum }
      else n)
    let consumed := names.any (fun n => decide (n.state ∈ consumable_name_states))
    if !consumed then
      Except.error "Cannot find an Approved or Condition name to be consumed."
    else
      Except.ok names'

/-- The demotion of another INPROGRESS request of the same user in
`Request.patch` (lines 842-849): restore its previous state when one is
recorded (clearing the record), fall back to HOLD otherwise. -/
def demoteExisting (e : NRD) : NRD :=
  match e.previousStateCd with
  | some p => { e with stateCd := p, previousStateCd := none }
  | none => { e with stateCd := StateCd.HOLD }

/-- The state-assignment block of `Request.patch` (lines 851-863): the
state and owner are set; entering a completed or cancelled state clears
the reset flag and defaults a CONDITIONAL consent flag to Y. -/
def applyStateStep (user : Nat) (s : StateCd) (nrd : NRD) : NRD :=
  let nrd1 := { nrd with stateCd := s, userId := user }
  if s ∈ COMPLETED_STATE ∨ s = StateCd.CANCELLED then
    let nrd2 := { nrd1 with hasBeenReset := false }
    if nrd2.stateCd = StateCd.CONDITIONAL ∧ nrd2.consentFlag = none then
      { nrd2 with consentFlag := some "Y" }
    else nrd2
  else nrd1

/-- The previous-state block of `Request.patch` (lines 887-888): a
present previousStateCd key overwrites the stored previous state, also
with null. -/
def applyPrevStep (prev : Option (Option StateCd)) (nrd : NRD) : NRD :=
  match prev with
  | some v => { nrd with previousStateCd := v }
  | none => nrd

/-- The expiration block of `Request.patch` (lines 890-900): exactly
when the state is a decision state, furnished is N and no expiration
date exists, the externally computed expiration date is stored and the
request is marked furnished. -/
def applyExpiry (nowExpiry : Nat) (nrd : NRD) : NRD :=
  if nrd.stateCd ∈ ([.APPROVED, .REJECTED, .CONDITIONAL] : List StateCd)
      ∧ nrd.furnished = "N" ∧ nrd.expirationDate = none then
    { nrd with expirationDate := some nowExpiry, furnished := "Y" }
  else nrd

/-- The tail of `Request.patch` after the state block (lines 885-937):
previous-state overwrite, expiration computation, name consumption for a
CONSUMED target (failing with 406 before the aggregate is saved), then
save and the decision-state notification. -/
def requestsPatchFinish (nowExpiry nowConsume : Nat) (input : RPatchInput)
    (nrd1 : NRD) (demoted : Option NRD) : Except RPatchErr RPatchOk :=
  let nrd3 := applyExpiry nowExpiry (applyPrevStep input.previousStateCd nrd1)
  if input.state = some StateCd.CONSUMED then
    match consumeName nowConsume input.corpNum nrd3.names with
    | Except.error msg => Except.error ⟨406, msg, nrd3, demoted⟩
    | Except.ok names' => Except.ok ⟨{ nrd3 with names := names' }, demoted, none⟩
  else
    Except.ok ⟨nrd3, demoted,
      if input.state = some StateCd.APPROVED ∨ input.state = some StateCd.CONDITIONAL
          ∨ input.state = some StateCd.REJECTED then
        input.state.map (fun s => (nrd3.nrNum, s))
      else none⟩

/-- `Request.patch` (requests.py lines 801-937), over the modelled
fields.  `vst` is the outcome of the external `valid_state_transition`
policy for this call; `existingNr` is what `get_inprogress(user)`
returns; `nowExpiry` is the expiry date the external expiry service
computes; `nowConsume` is the consumption timestamp.  When a state is
supplied it must be valid and the transition allowed; any other
INPROGRESS request of the user is demoted and saved; `applyStateStep`
sets the state and owner; `requestsPatchFinish` runs the rest.  (The
source's furnished-reset guard `start_state in locals()` at line 855
tests whether the state string is the name of a local variable, which is
never the case, so that branch never runs and is omitted.) -/
def requestsPatch (user : Nat) (vst : Bool) (existingNr : Option NRD)
    (nowExpiry : Nat) (nowConsume : Nat) (input : RPatchInput) (nrd : NRD) :
    Except RPatchErr RPatchOk :=
  match input.state with
  | some s =>
    if s ∉ VALID_STATES then
      Except.error ⟨406, "not a valid state", nrd, none⟩
    else if !vst then
      Except.error ⟨401, "Name Request state transition validation failed.", nrd, none⟩
    else
      requestsPatchFinish nowExpiry nowConsume input
        (applyStateStep user s nrd) (existingNr.map demoteExisting)
  | none => requestsPatchFinish nowExpiry nowConsume input nrd none

/-- The JSON body of `Request.put`, restricted to the keys the modelled
control flow reads; `names` carries (choice, name text) pairs. -/
structure RPutInput where
  nrNum : Option String := none
  state : Option StateCd := none
  names : List (Nat × String) := []
  deriving DecidableEq, Repr

/-- The name-choice presence check of `Request.put` (lines 989-992): a
choice slot counts as present when the payload lists a name with that
choice number and non-empty text. -/
def nameChoiceExists (names : List (Nat × String)) (i : Nat) : Bool :=
  names.any (fun nc => nc.1 == i && nc.2 != "")

/-- The body of `Request.put` after the nrNum guard (requests.py lines
966-1076), over the modelled fields: the state must be present, valid,
and the transition allowed; name choice 1 must exist with non-empty text
and choice 3 requires choice 2; then any other INPROGRESS request of the
same user is set to HOLD (unconditionally, lines 999-1002) and saved,
and the aggregate's state and owner are replaced from the payload. -/
def requestsPutChecked (user : Nat) (vst : Bool) (existingNr : Option NRD)
    (input : RPutInput) (nrd : NRD) : Except RPatchErr RPatchOk :=
  match input.state with
  | none => Except.error ⟨406, "state not set", nrd, none⟩
  | some s =>
    if s ∉ VALID_STATES then
      Except.error ⟨406, "not a valid state", nrd, none⟩
    else if !vst then
      Except.error ⟨401, "you are not authorized to make these changes", nrd, none⟩
    else if !(nameChoiceExists input.names 1) then
      Except.error ⟨400, "Data does not include a name choice 1", nrd, none⟩
    else if !(nameChoiceExists input.names 2) && nameChoiceExists input.names 3 then
      Except.error ⟨400, "Data contains a name choice 3 without a name choice 2", nrd, none⟩
    else
      let demoted := existingNr.map (fun e => { e with stateCd := StateCd.HOLD })
      let nrd1 := { nrd with stateCd := s, userId := user }
      Except.ok ⟨nrd1, demoted, none⟩

/-- `Request.put` (requests.py lines 955-1076): a payload nrNum
differing from the resource's NR is rejected up front, then
`requestsPutChecked` runs. -/
def requestsPut (user : Nat) (vst : Bool) (existingNr : Option NRD)
    (input : RPutInput) (resourceNr : String) (nrd : NRD) :
    Except RPatchErr RPatchOk :=
  match input.nrNum with
  | some n =>
    if n ≠ resourceNr then
      Except.error ⟨400, "Data contains a different NR# than this resource", nrd, none⟩
    else requestsPutChecked user vst existingNr input nrd
  | none => requestsPutChecked user vst existingNr input nrd

/-- The JSON body of `PaymentSocieties.post` (payment_societies.py),
restricted to the keys its control flow reads. -/
structure PSInput where
  nrNum : Option String := none
  corpNum : Option String := none
  paymentStatusCode : Option String := none
  paymentFeeCode : Option String := none
  paymentType : Option String := none
  paymentAmount : Option Nat := none
  paymentAction : Option String := none
  deriving DecidableEq, Repr

/-- A saved payment-society row (payment_societies.py lines 156-165). -/
structure PSRecord where
  nrNum : String
  corpNum : Option String
  paymentStatusCode : Option String
  paymentFeeCode : Option String
  paymentType : Option String
  paymentAmount : Option Nat
  paymentAction : Option String
  deriving DecidableEq, Repr

/-- The successful outcome of `PaymentSocieties.post`: the saved payment
record and the saved aggregate. -/
structure PSOk where
  ps : PSRecord
  nrd : NRD
  deriving DecidableEq, Repr

/-- `PaymentSocieties.post` (payment_societies.py lines 124-175): the
payload must name an NR and the NR must exist; `add_new_nr_number`
(outside the source slice; per the source comment it replaces a
temporary NR number with a formal one when needed) is modelled by the
`formalNum` parameter overwriting only the NR number.  The payment row
is built from the payload and saved; then, exactly when the aggregate is
in PENDING_PAYMENT, its state moves to DRAFT; the aggregate is saved in
either case. -/
def paymentSocietiesPost (input : PSInput) (found : Option NRD)
    (formalNum : String) : Except (Nat × String) PSOk :=
  match input.nrNum with
  | none => Except.error (406, "nr_num not set in json input")
  | some n =>
    match found with
    | none => Except.error (404, "Request: " ++ n ++ " not found in requests table")
    | some nrd0 =>
      let nrd := { nrd0 with nrNum := formalNum }
      let ps : PSRecord :=
        { nrNum := nrd.nrNum,
          corpNum := input.corpNum,
          paymentStatusCode := input.paymentStatusCode,
          paymentFeeCode := input.paymentFeeCode,
          paymentType := input.paymentType,
          paymentAmount := input.paymentAmount,
          paymentAction := input.paymentAction }
      let nrd1 :=
        if nrd.stateCd = StateCd.PENDING_PAYMENT then
          { nrd with stateCd := StateCd.DRAFT }
        else nrd
      Except.ok ⟨ps, nrd1⟩

/-! Concrete fixtures used by the witnesses. -/

/-- A draft NR with no checkout token and no payments. -/
def nrDraft : NRModel :=
  { id := 1, nrNum := "NR 1234567", stateCd := StateCd.DRAFT,
    checkedOutBy := none, checkedOutDt := none, userId := 7,
    furnished := "N", payments := [] }

/-- A payment gateway stub that reports empty payments and successful
refunds. -/
def poZero : PayOracle :=
  { getPayment := fun _ => { total := 0, receipts := [] },
    refundPayment := fun _ => true }

/-- Unfolding lemma: a CHECKOUT on a free, request-editable NR runs the
checkout handler on the service-account-owned aggregate with the freshly
minted token. -/
lemma nrPatch_checkout_free (nr : NRModel) (payload : PatchPayload)
    (freshToken : String) (now svc : Nat) (po : PayOracle)
    (hfree : nr.checkedOutBy = none)
    (hed : is_request_editable nr.stateCd = true) :
    nrPatch "CHECKOUT" payload freshToken now svc po nr =
      Except.ok ⟨update_nr { nr with userId := svc } StateCd.INPROGRESS
        ⟨some (some freshToken), some (some now), none⟩,
        [], [], [], "PATCH [checkout]"⟩ := by
  have hed' : nr.stateCd ∈ request_editable_states := of_decide_eq_true hed
  unfold nrPatch
  rw [hfree, show mapPatchAction "CHECKOUT" = "CHECKOUT" from rfl]
  simp [validate_patch_request, hed, hed', nr_patch_dispatch,
    patch_actions_has_value, name_request_patch_actions]

/-- Unfolding lemma: a CHECKOUT presenting a token that differs from the
held one raises the lock-conflict error before any mutation. -/
lemma nrPatch_checkout_conflict (nr : NRModel) (payload : PatchPayload)
    (freshToken : String) (now svc : Nat) (po : PayOracle) (a : String)
    (ha : nr.checkedOutBy = some a) (hne : payload.checkedOutBy ≠ some a) :
    nrPatch "CHECKOUT" payload freshToken now svc po nr =
      Except.error (PatchError.inProgressLocked, nr) := by
  have hcond : some a ≠ payload.checkedOutBy := fun h => hne h.symm
  unfold nrPatch
  rw [ha, show mapPatchAction "CHECKOUT" = "CHECKOUT" from rfl]
  simp [hcond]

/-- C1: with no checkout token and a request-editable state, CHECKOUT
succeeds and stores the freshly minted non-null token (moving the NR to
INPROGRESS); with a token A held and a payload presenting a different
token B, CHECKOUT fails with the lock-conflict (HTTP 423) error and the
aggregate is returned exactly as it was. -/
theorem C1_checkout_lock
    (nr : NRModel) (payload : PatchPayload) (freshToken : String)
    (now svc : Nat) (po : PayOracle)
    (hfree : nr.checkedOutBy = none)
    (hed : is_request_editable nr.stateCd = true) :
    (∃ out, nrPatch "CHECKOUT" payload freshToken now svc po nr = Except.ok out ∧
      out.nr.checkedOutBy = some freshToken ∧
      out.nr.stateCd = StateCd.INPROGRESS) ∧
    (∀ (nrB : NRModel) (a b : String), nrB.checkedOutBy = some a →
      payload.checkedOutBy = some b → a ≠ b →
      nrPatch "CHECKOUT" payload freshToken now svc po nrB =
        Except.error (PatchError.inProgressLocked, nrB)) := by
  constructor
  · exact ⟨_, nrPatch_checkout_free nr payload freshToken now svc po hfree hed,
      by simp [update_nr], by simp [update_nr]⟩
  · intro nrB a b ha hb hne
    refine nrPatch_checkout_conflict nrB payload freshToken now svc po a ha ?_
    rw [hb]
    simp
    exact fun h => hne h.symm

/-- C1 witness: the theorem applied to a concrete draft NR with no
checkout token, and a payload carrying a foreign token. -/
theorem C1_checkout_lock_witness :
    nrDraft.checkedOutBy = none ∧
    is_request_editable nrDraft.stateCd = true ∧
    ((∃ out, nrPatch "CHECKOUT" { checkedOutBy := some "tok-B" } "tok-1" 5 99
        poZero nrDraft = Except.ok out ∧
      out.nr.checkedOutBy = some "tok-1" ∧
      out.nr.stateCd = StateCd.INPROGRESS) ∧
     (∀ (nrB : NRModel) (a b : String), nrB.checkedOutBy = some a →
      ({ checkedOutBy := some "tok-B" } : PatchPayload).checkedOutBy = some b →
      a ≠ b →
      nrPatch "CHECKOUT" { checkedOutBy := some "tok-B" } "tok-1" 5 99 poZero nrB =
        Except.error (PatchError.inProgressLocked, nrB))) :=
  ⟨rfl, by decide,
    C1_checkout_lock nrDraft { checkedOutBy := some "tok-B" } "tok-1" 5 99
      poZero rfl (by decide)⟩

/-- An NR persisted in APPROVED, used as counterexample input. -/
def nrApproved : NRModel :=
  { nrDraft with stateCd := StateCd.APPROVED }

/-- C2 counterexample: an NR persisted in APPROVED (not a valid starting
state for PUT) together with a payload asking for DRAFT is not rejected:
the PUT returns success and merely skips the update, so the claim that
the operation is surfaced as an error fails at this input. -/
theorem C2_put_counterexample :
    nrPut { stateCd := some StateCd.DRAFT } nrApproved =
      Except.ok (nrApproved, false) ∧
    ∀ e, nrPut { stateCd := some StateCd.DRAFT } nrApproved ≠ Except.error e := by
  refine ⟨rfl, ?_⟩
  intro e h
  rw [show nrPut { stateCd := some StateCd.DRAFT } nrApproved =
    Except.ok (nrApproved, false) from rfl] at h
  exact Except.noConfusion h

/-- C2 amended: `NameRequestResource.put` validates the payload's
stateCd, not the persisted state.  A payload state outside
{DRAFT, COND_RESERVE, RESERVED, PENDING_PAYMENT} (or an absent payload
state) is rejected with a validation error and the aggregate untouched;
when the payload state is in the set but the persisted state is not, the
request is not updated, yet the call completes successfully instead of
being rejected. -/
theorem C2_put_validation (nr : NRModel) (payload : PatchPayload) :
    ((payload.stateCd = none ∨
        ∃ s, payload.stateCd = some s ∧ s ∉ valid_update_states) →
      nrPut payload nr = Except.error (PatchError.invalidInput, nr)) ∧
    (nr.stateCd ∉ valid_update_states →
      ∀ s, payload.stateCd = some s → s ∈ valid_update_states →
      nrPut payload nr = Except.ok (nr, false)) := by
  constructor
  · intro h
    unfold nrPut
    rcases h with h | ⟨s, hs, hmem⟩
    · rw [h]
      simp
    · rw [hs]
      simp [hmem]
  · intro hst s hs hmem
    unfold nrPut
    rw [hs]
    simp [hmem, hst]

/-- C2 witness: the amended theorem applied to the APPROVED NR with a
rejected payload and with an accepted-but-skipped payload. -/
theorem C2_put_validation_witness :
    (nrPut { stateCd := some StateCd.APPROVED } nrApproved =
      Except.error (PatchError.invalidInput, nrApproved)) ∧
    (nrPut { stateCd := some StateCd.DRAFT } nrApproved =
      Except.ok (nrApproved, false)) :=
  ⟨(C2_put_validation nrApproved { stateCd := some StateCd.APPROVED }).1
      (Or.inr ⟨StateCd.APPROVED, rfl, by decide⟩),
   (C2_put_validation nrApproved { stateCd := some StateCd.DRAFT }).2
      (by decide) StateCd.DRAFT rfl (by decide)⟩

/-- C3: when the current state is not refundable (refundable means
DRAFT), the REQUEST_REFUND action raises the in-progress/locked error in
the setup step, before any state change, payment update or notification:
the error carries the aggregate exactly as it was, and no outcome with
side effects is produced. -/
theorem C3_refund_guard (nr : NRModel) (payload : PatchPayload)
    (freshToken : String) (now svc : Nat) (po : PayOracle)
    (h : is_name_request_refundable nr.stateCd = false) :
    nrPatch "REQUEST_REFUND" payload freshToken now svc po nr =
      Except.error (PatchError.inProgressLocked, nr) := by
  unfold nrPatch
  rw [show mapPatchAction "REQUEST_REFUND" = "REQUEST_REFUND" from rfl]
  simp [h]

/-- An NR persisted in INPROGRESS, used as witness input. -/
def nrInProgress : NRModel :=
  { nrDraft with stateCd := StateCd.INPROGRESS }

/-- C3 witness: the theorem applied to an INPROGRESS NR. -/
theorem C3_refund_guard_witness :
    is_name_request_refundable nrInProgress.stateCd = false ∧
    nrPatch "REQUEST_REFUND" {} "t" 0 9 poZero nrInProgress =
      Except.error (PatchError.inProgressLocked, nrInProgress) :=
  ⟨by decide, C3_refund_guard nrInProgress {} "t" 0 9 poZero (by decide)⟩

/-- Unfolding lemma: a REQUEST_REFUND on a refundable NR whose payload
carries no state change reaches the refund handler. -/
lemma nrPatch_refund_run (nr : NRModel) (payload : PatchPayload)
    (freshToken : String) (now svc : Nat) (po : PayOracle)
    (href : is_name_request_refundable nr.stateCd = true)
    (hps : payload.stateCd = none) :
    nrPatch "REQUEST_REFUND" payload freshToken now svc po nr =
      Except.ok (handle_patch_request_refund po payload.toRequestData nr) := by
  have hs : nr.stateCd = StateCd.DRAFT := of_decide_eq_true href
  unfold nrPatch
  rw [show mapPatchAction "REQUEST_REFUND" = "REQUEST_REFUND" from rfl]
  simp [href, validate_patch_request, PatchPayload.toRequestData, hps, hs,
    patch_actions_has_value, name_request_patch_actions, nr_patch_dispatch,
    request_editable_states, is_name_request_refundable,
    contact_editable_states]

/-- C4: REQUEST_REFUND on a refundable NR that has a payment with
action REAPPLY refunds nothing (no refund call, no gateway fetch), marks
no payment row, and still publishes exactly one refund notification with
the total formatted to two decimals, which is 0.00. -/
theorem C4_refund_reapply (nr : NRModel) (payload : PatchPayload)
    (freshToken : String) (now svc : Nat) (po : PayOracle)
    (href : is_name_request_refundable nr.stateCd = true)
    (hps : payload.stateCd = none)
    (hre : ∃ p ∈ nr.payments, p.payment_action = "REAPPLY") :
    ∃ out, nrPatch "REQUEST_REFUND" payload freshToken now svc po nr =
        Except.ok out ∧
      out.nr.payments = nr.payments ∧
      out.refunds = [] ∧
      out.fetched = [] ∧
      out.notifications = [(nr.nrNum, "refund", "0.00")] := by
  have hany : nr.payments.any (fun p => p.payment_action == "REAPPLY") = true := by
    rcases hre with ⟨p, hp, he⟩
    exact List.any_eq_true.mpr ⟨p, hp, by simp [he]⟩
  refine ⟨handle_patch_request_refund po payload.toRequestData nr,
    nrPatch_refund_run nr payload freshToken now svc po href hps, ?_, ?_, ?_, ?_⟩
  all_goals
    unfold handle_patch_request_refund
    simp [update_nr, hany]
  rfl

/-- A COMPLETED payment carrying the REAPPLY action. -/
def payReapply : Payment :=
  { payment_token := 11, payment_status_code := "COMPLETED",
    payment_action := "REAPPLY" }

/-- An APPROVED payment with an ordinary action. -/
def payNormal : Payment :=
  { payment_token := 12, payment_status_code := "APPROVED",
    payment_action := "CREATE" }

/-- A draft NR holding a REAPPLY payment next to a normal one. -/
def nrRenewed : NRModel :=
  { nrDraft with payments := [payNormal, payReapply] }

/-- C4 witness: the theorem applied to the renewed draft NR. -/
theorem C4_refund_reapply_witness :
    is_name_request_refundable nrRenewed.stateCd = true ∧
    (∃ p ∈ nrRenewed.payments, p.payment_action = "REAPPLY") ∧
    (∃ out, nrPatch "REQUEST_REFUND" {} "t" 0 9 poZero nrRenewed =
        Except.ok out ∧
      out.nr.payments = nrRenewed.payments ∧
      out.refunds = [] ∧
      out.fetched = [] ∧
      out.notifications = [(nrRenewed.nrNum, "refund", "0.00")]) :=
  ⟨by decide, ⟨payReapply, by decide, rfl⟩,
    C4_refund_reapply nrRenewed {} "t" 0 9 poZero (by decide) rfl
      ⟨payReapply, by decide, rfl⟩⟩

/-- Whether a payment's status makes it eligible for the refund loop. -/
def eligiblePayment (p : Payment) : Bool :=
  decide (p.payment_status_code ∈ refund_valid_states)

/-- The first receipt amount of a gateway response (0 when there is no
receipt), as the refund loop accumulates it. -/
def firstReceipt (resp : PaymentResponse) : Nat :=
  match resp.receipts with
  | [] => 0
  | a :: _ => a

/-- The refund loop marks exactly the eligible payments
REFUND_REQUESTED and passes the rest through. -/
lemma refundLoop_payments_eq (po : PayOracle) (payments : List Payment) :
    (refundLoop po payments).payments = payments.map (fun p =>
      if eligiblePayment p then
        { p with payment_status_code := "REFUND_REQUESTED" } else p) := by
  induction payments with
  | nil => rfl
  | cons p ps ih =>
    by_cases h : p.payment_status_code ∈ refund_valid_states
    · simp [refundLoop, h, eligiblePayment, ih]
    · simp [refundLoop, h, eligiblePayment, ih]

/-- The refund loop fetches the gateway detail of every eligible
payment, in order. -/
lemma refundLoop_fetched_eq (po : PayOracle) (payments : List Payment) :
    (refundLoop po payments).fetched =
      (payments.filter eligiblePayment).map (fun p => p.payment_token) := by
  induction payments with
  | nil => rfl
  | cons p ps ih =>
    by_cases h : p.payment_status_code ∈ refund_valid_states
    · simp [refundLoop, h, eligiblePayment, List.filter, ih]
    · simp [refundLoop, h, eligiblePayment, List.filter, ih]

/-- The refund loop accumulates the first receipt amount of every
eligible payment. -/
lemma refundLoop_value_eq (po : PayOracle) (payments : List Payment) :
    (refundLoop po payments).refundValue =
      ((payments.filter eligiblePayment).map
        (fun p => firstReceipt (po.getPayment p.payment_token))).sum := by
  induction payments with
  | nil => rfl
  | cons p ps ih =>
    by_cases h : p.payment_status_code ∈ refund_valid_states
    · simp [refundLoop, h, eligiblePayment, List.filter, ih, firstReceipt]
    · simp [refundLoop, h, eligiblePayment, List.filter, ih]

/-- The refund loop's outcome does not depend on the refund call's
success at all: it only reads the gateway's payment details. -/
lemma refundLoop_oracle_eq (po po2 : PayOracle) (payments : List Payment)
    (hsame : po.getPayment = po2.getPayment) :
    refundLoop po payments = refundLoop po2 payments := by
  induction payments with
  | nil => rfl
  | cons p ps ih =>
    by_cases h : p.payment_status_code ∈ refund_valid_states
    · simp [refundLoop, h, ih, hsame]
    · simp [refundLoop, h, ih]

/-- C5: in the refund loop, a failure of the external refund call for
one payment does not block the remaining payments.  Formally: the
loop's entire outcome is unchanged under any change of the refund
call's behaviour (including one that fails on every payment), and for
any behaviour every eligible payment is still fetched from the gateway,
marked REFUND_REQUESTED, and its first receipt amount accumulated. -/
theorem C5_refund_best_effort (po po2 : PayOracle) (payments : List Payment)
    (hsame : po.getPayment = po2.getPayment) :
    refundLoop po payments = refundLoop po2 payments ∧
    (refundLoop po payments).payments = payments.map (fun p =>
      if eligiblePayment p then
        { p with payment_status_code := "REFUND_REQUESTED" } else p) ∧
    (refundLoop po payments).fetched =
      (payments.filter eligiblePayment).map (fun p => p.payment_token) ∧
    (refundLoop po payments).refundValue =
      ((payments.filter eligiblePayment).map
        (fun p => firstReceipt (po.getPayment p.payment_token))).sum :=
  ⟨refundLoop_oracle_eq po po2 payments hsame,
   refundLoop_payments_eq po payments,
   refundLoop_fetched_eq po payments,
   refundLoop_value_eq po payments⟩

/-- A payment gateway stub with a nonzero total and one receipt, paired
with a refund call that always fails. -/
def poFailing : PayOracle :=
  { getPayment := fun _ => { total := 2500, receipts := [2500] },
    refundPayment := fun _ => false }

/-- A payment gateway stub identical to `poFailing` except that every
refund call succeeds. -/
def poSucceeding : PayOracle :=
  { getPayment := fun _ => { total := 2500, receipts := [2500] },
    refundPayment := fun _ => true }

/-- C5 witness: the theorem applied to two eligible payments under the
always-failing refund oracle, compared against the always-succeeding
one. -/
theorem C5_refund_best_effort_witness :
    poFailing.getPayment = poSucceeding.getPayment ∧
    (refundLoop poFailing [payNormal, payReapply] =
      refundLoop poSucceeding [payNormal, payReapply] ∧
    (refundLoop poFailing [payNormal, payReapply]).payments =
      [payNormal, payReapply].map (fun p =>
        if eligiblePayment p then
          { p with payment_status_code := "REFUND_REQUESTED" } else p) ∧
    (refundLoop poFailing [payNormal, payReapply]).fetched =
      ([payNormal, payReapply].filter eligiblePayment).map
        (fun p => p.payment_token) ∧
    (refundLoop poFailing [payNormal, payReapply]).refundValue =
      (([payNormal, payReapply].filter eligiblePayment).map
        (fun p => firstReceipt (poFailing.getPayment p.payment_token))).sum) :=
  ⟨rfl, C5_refund_best_effort poFailing poSucceeding [payNormal, payReapply] rfl⟩

lemma applyStateStep_stateCd (u : Nat) (s : StateCd) (nrd : NRD) :
    (applyStateStep u s nrd).stateCd = s := by
  unfold applyStateStep
  dsimp only
  repeat' split
  all_goals rfl

lemma applyStateStep_furnished (u : Nat) (s : StateCd) (nrd : NRD) :
    (applyStateStep u s nrd).furnished = nrd.furnished := by
  unfold applyStateStep
  dsimp only
  repeat' split
  all_goals rfl

lemma applyStateStep_expirationDate (u : Nat) (s : StateCd) (nrd : NRD) :
    (applyStateStep u s nrd).expirationDate = nrd.expirationDate := by
  unfold applyStateStep
  dsimp only
  repeat' split
  all_goals rfl

lemma applyStateStep_names (u : Nat) (s : StateCd) (nrd : NRD) :
    (applyStateStep u s nrd).names = nrd.names := by
  unfold applyStateStep
  dsimp only
  repeat' split
  all_goals rfl

lemma applyPrevStep_stateCd (prev : Option (Option StateCd)) (nrd : NRD) :
    (applyPrevStep prev nrd).stateCd = nrd.stateCd := by
  unfold applyPrevStep
  split
  all_goals rfl

lemma applyPrevStep_furnished (prev : Option (Option StateCd)) (nrd : NRD) :
    (applyPrevStep prev nrd).furnished = nrd.furnished := by
  unfold applyPrevStep
  split
  all_goals rfl

lemma applyPrevStep_expirationDate (prev : Option (Option StateCd)) (nrd : NRD) :
    (applyPrevStep prev nrd).expirationDate = nrd.expirationDate := by
  unfold applyPrevStep
  split
  all_goals rfl

lemma applyPrevStep_names (prev : Option (Option StateCd)) (nrd : NRD) :
    (applyPrevStep prev nrd).names = nrd.names := by
  unfold applyPrevStep
  split
  all_goals rfl

/-- When the expiry rule fires (decision state, furnished N, no date),
the date is stamped and the NR furnished. -/
lemma applyExpiry_fires (nowExpiry : Nat) (nrd : NRD)
    (hst : nrd.stateCd ∈ ([.APPROVED, .REJECTED, .CONDITIONAL] : List StateCd))
    (hf : nrd.furnished = "N") (he : nrd.expirationDate = none) :
    applyExpiry nowExpiry nrd =
      { nrd with expirationDate := some nowExpiry, furnished := "Y" } := by
  unfold applyExpiry
  rw [if_pos ⟨hst, hf, he⟩]

/-- When the NR is already furnished or dated, the expiry rule leaves it
untouched. -/
lemma applyExpiry_skips (nowExpiry : Nat) (nrd : NRD)
    (h : nrd.expirationDate ≠ none ∨ nrd.furnished ≠ "N") :
    applyExpiry nowExpiry nrd = nrd := by
  unfold applyExpiry
  rcases h with h | h
  · rw [if_neg]
    exact fun hc => h hc.2.2
  · rw [if_neg]
    exact fun hc => h hc.2.1

lemma applyExpiry_names (nowExpiry : Nat) (nrd : NRD) :
    (applyExpiry nowExpiry nrd).names = nrd.names := by
  unfold applyExpiry
  split
  all_goals rfl

/-- C6: a PATCH that moves the request into APPROVED, REJECTED or
CONDITIONAL while furnished is N and the expiration date is null, sets
furnished to Y and a non-null expiration date; and whenever the
expiration date is already non-null, or furnished is not N, the same
transition leaves the expiration date exactly as it was. -/
theorem C6_expiration_once (user : Nat) (existingNr : Option NRD)
    (nowExpiry nowConsume : Nat) (input : RPatchInput) (nrd : NRD) (s : StateCd)
    (hstate : input.state = some s)
    (hdec : s ∈ ([StateCd.APPROVED, StateCd.REJECTED, StateCd.CONDITIONAL] : List StateCd)) :
    (nrd.furnished = "N" → nrd.expirationDate = none →
      ∃ out, requestsPatch user true existingNr nowExpiry nowConsume input nrd =
          Except.ok out ∧
        out.nrd.furnished = "Y" ∧ out.nrd.expirationDate = some nowExpiry) ∧
    ((nrd.expirationDate ≠ none ∨ nrd.furnished ≠ "N") →
      ∃ out, requestsPatch user true existingNr nowExpiry nowConsume input nrd =
          Except.ok out ∧
        out.nrd.expirationDate = nrd.expirationDate) := by
  have hdec3 : s = StateCd.APPROVED ∨ s = StateCd.REJECTED ∨ s = StateCd.CONDITIONAL := by
    simpa using hdec
  have hvalid : s ∈ VALID_STATES := by
    rcases hdec3 with h | h | h
    all_goals subst h
    all_goals decide
  have hnotcons : input.state ≠ some StateCd.CONSUMED := by
    rw [hstate]
    rcases hdec3 with h | h | h
    all_goals subst h
    all_goals simp
  have hrun : requestsPatch user true existingNr nowExpiry nowConsume input nrd =
      requestsPatchFinish nowExpiry nowConsume input
        (applyStateStep user s nrd) (existingNr.map demoteExisting) := by
    unfold requestsPatch
    rw [hstate]
    simp [hvalid]
  set nrd2 := applyPrevStep input.previousStateCd (applyStateStep user s nrd)
    with hnrd2
  have h2st : nrd2.stateCd = s := by
    rw [hnrd2, applyPrevStep_stateCd, applyStateStep_stateCd]
  have h2f : nrd2.furnished = nrd.furnished := by
    rw [hnrd2, applyPrevStep_furnished, applyStateStep_furnished]
  have h2e : nrd2.expirationDate = nrd.expirationDate := by
    rw [hnrd2, applyPrevStep_expirationDate, applyStateStep_expirationDate]
  have hfin : requestsPatchFinish nowExpiry nowConsume input
      (applyStateStep user s nrd) (existingNr.map demoteExisting) =
      Except.ok ⟨applyExpiry nowExpiry nrd2, existingNr.map demoteExisting,
        if input.state = some StateCd.APPROVED ∨ input.state = some StateCd.CONDITIONAL
            ∨ input.state = some StateCd.REJECTED then
          input.state.map (fun t => ((applyExpiry nowExpiry nrd2).nrNum, t))
        else none⟩ := by
    unfold requestsPatchFinish
    rw [← hnrd2, if_neg hnotcons]
  constructor
  · intro hf he
    refine ⟨_, by rw [hrun, hfin], ?_, ?_⟩
    · rw [applyExpiry_fires nowExpiry nrd2 (by rw [h2st]; exact hdec)
        (by rw [h2f]; exact hf) (by rw [h2e]; exact he)]
    · rw [applyExpiry_fires nowExpiry nrd2 (by rw [h2st]; exact hdec)
        (by rw [h2f]; exact hf) (by rw [h2e]; exact he)]
  · intro h
    refine ⟨_, by rw [hrun, hfin], ?_⟩
    rw [applyExpiry_skips nowExpiry nrd2 (by rw [h2e, h2f]; exact h), h2e]

/-- A base aggregate for the requests-resource witnesses: INPROGRESS,
unfurnished, no expiration date, one approved and one rejected name. -/
def nrdBase : NRD :=
  { nrNum := "NR 7654321", stateCd := StateCd.INPROGRESS,
    previousStateCd := none, furnished := "N", expirationDate := none,
    consentFlag := none, hasBeenReset := false, userId := 3,
    names :=
      [{ choice := 1, name := "ACME CO", state := "APPROVED",
         consumptionDate := none, corpNum := none },
       { choice := 2, name := "ACME HOLDINGS", state := "REJECTED",
         consumptionDate := none, corpNum := none }] }

/-- C6 witness: the theorem applied to the unfurnished base NR moving to
APPROVED (first part), and to the resulting furnished NR repeating the
transition (second part, expiration date untouched). -/
theorem C6_expiration_once_witness :
    (∃ out, requestsPatch 3 true none 777 888
        { state := some StateCd.APPROVED } nrdBase = Except.ok out ∧
      out.nrd.furnished = "Y" ∧ out.nrd.expirationDate = some 777) ∧
    (∃ out, requestsPatch 3 true none 999 888 { state := some StateCd.APPROVED }
        { nrdBase with furnished := "Y", expirationDate := some 777 } =
          Except.ok out ∧
      out.nrd.expirationDate =
        ({ nrdBase with furnished := "Y", expirationDate := some 777 } : NRD).expirationDate) :=
  ⟨(C6_expiration_once 3 none 777 888 { state := some StateCd.APPROVED }
      nrdBase StateCd.APPROVED rfl (by decide)).1 rfl rfl,
   (C6_expiration_once 3 none 999 888 { state := some StateCd.APPROVED }
      { nrdBase with furnished := "Y", expirationDate := some 777 }
      StateCd.APPROVED rfl (by decide)).2 (Or.inl (by simp))⟩

lemma consumeName_falsy (nowConsume : Nat) (corpNum : Option String)
    (names : List NameChoice) (hc : corpNum = none ∨ corpNum = some "") :
    consumeName nowConsume corpNum names =
      Except.error "corpNum is required and cannot be empty." := by
  unfold consumeName
  rw [if_pos hc]

lemma consumeName_no_eligible (nowConsume : Nat) (corpNum : Option String)
    (names : List NameChoice) (hc : ¬(corpNum = none ∨ corpNum = some ""))
    (hno : ∀ n ∈ names, n.state ∉ consumable_name_states) :
    consumeName nowConsume corpNum names =
      Except.error "Cannot find an Approved or Condition name to be consumed." := by
  unfold consumeName
  rw [if_neg hc]
  have hfalse : names.any (fun n => decide (n.state ∈ consumable_name_states)) = false := by
    rw [List.any_eq_false]
    intro n hn
    simp [hno n hn]
  simp [hfalse]

lemma consumeName_ok (nowConsume : Nat) (corpNum : Option String)
    (names : List NameChoice) (hc : ¬(corpNum = none ∨ corpNum = some ""))
    (hex : ∃ n ∈ names, n.state ∈ consumable_name_states) :
    consumeName nowConsume corpNum names =
      Except.ok (names.map (fun n =>
        if n.state ∈ consumable_name_states then
          { n with consumptionDate := some nowConsume, corpNum := corpNum }
        else n)) := by
  unfold consumeName
  rw [if_neg hc]
  have htrue : names.any (fun n => decide (n.state ∈ consumable_name_states)) = true := by
    rcases hex with ⟨n, hn, hst⟩
    exact List.any_eq_true.mpr ⟨n, hn, by simpa using hst⟩
  simp [htrue]

/-- The finish step under a CONSUMED target dispatches on `consumeName`
applied to the names after the earlier blocks. -/
lemma requestsPatchFinish_consumed (nowExpiry nowConsume : Nat)
    (input : RPatchInput) (nrd1 : NRD) (demoted : Option NRD)
    (h : input.state = some StateCd.CONSUMED) :
    requestsPatchFinish nowExpiry nowConsume input nrd1 demoted =
      (match consumeName nowConsume input.corpNum
          (applyExpiry nowExpiry (applyPrevStep input.previousStateCd nrd1)).names with
       | Except.error msg =>
          Except.error ⟨406, msg,
            applyExpiry nowExpiry (applyPrevStep input.previousStateCd nrd1), demoted⟩
       | Except.ok names' =>
          Except.ok ⟨{ applyExpiry nowExpiry (applyPrevStep input.previousStateCd nrd1)
            with names := names' }, demoted, none⟩) := by
  unfold requestsPatchFinish
  rw [h]
  simp

/-- C7: a PATCH targeting CONSUMED fails with a 406 validation error
naming the missing precondition when the payload corpNum is absent or
empty, or when no name choice is APPROVED or CONDITION; in both failure
cases no name record is mutated.  When both preconditions hold, every
APPROVED or CONDITION name choice receives the consumption date and the
payload corpNum, and the others are untouched. -/
theorem C7_consume_preconditions (user : Nat) (existingNr : Option NRD)
    (nowExpiry nowConsume : Nat) (input : RPatchInput) (nrd : NRD)
    (hstate : input.state = some StateCd.CONSUMED) :
    ((input.corpNum = none ∨ input.corpNum = some "") →
      ∃ e, requestsPatch user true existingNr nowExpiry nowConsume input nrd =
          Except.error e ∧ e.code = 406 ∧
        e.msg = "corpNum is required and cannot be empty." ∧
        e.nrd.names = nrd.names) ∧
    (¬(input.corpNum = none ∨ input.corpNum = some "") →
      (∀ n ∈ nrd.names, n.state ∉ consumable_name_states) →
      ∃ e, requestsPatch user true existingNr nowExpiry nowConsume input nrd =
          Except.error e ∧ e.code = 406 ∧
        e.msg = "Cannot find an Approved or Condition name to be consumed." ∧
        e.nrd.names = nrd.names) ∧
    (¬(input.corpNum = none ∨ input.corpNum = some "") →
      (∃ n ∈ nrd.names, n.state ∈ consumable_name_states) →
      ∃ out, requestsPatch user true existingNr nowExpiry nowConsume input nrd =
          Except.ok out ∧
        out.nrd.names = nrd.names.map (fun n =>
          if n.state ∈ consumable_name_states then
            { n with consumptionDate := some nowConsume, corpNum := input.corpNum }
          else n)) := by
  have hrun : requestsPatch user true existingNr nowExpiry nowConsume input nrd =
      requestsPatchFinish nowExpiry nowConsume input
        (applyStateStep user StateCd.CONSUMED nrd) (existingNr.map demoteExisting) := by
    unfold requestsPatch
    rw [hstate]
    simp [show StateCd.CONSUMED ∈ VALID_STATES from by decide]
  set nrd3 := applyExpiry nowExpiry
    (applyPrevStep input.previousStateCd (applyStateStep user StateCd.CONSUMED nrd))
    with hnrd3
  have hnames : nrd3.names = nrd.names := by
    rw [hnrd3, applyExpiry_names, applyPrevStep_names, applyStateStep_names]
  have hdisp := requestsPatchFinish_consumed nowExpiry nowConsume input
    (applyStateStep user StateCd.CONSUMED nrd) (existingNr.map demoteExisting) hstate
  rw [← hnrd3] at hdisp
  refine ⟨?_, ?_, ?_⟩
  · intro hc
    rw [hrun, hdisp, consumeName_falsy nowConsume input.corpNum nrd3.names hc]
    exact ⟨_, rfl, rfl, rfl, hnames⟩
  · intro hc hno
    rw [hrun, hdisp, consumeName_no_eligible nowConsume input.corpNum nrd3.names hc
      (by rw [hnames]; exact hno)]
    exact ⟨_, rfl, rfl, rfl, hnames⟩
  · intro hc hex
    rw [hrun, hdisp, consumeName_ok nowConsume input.corpNum nrd3.names hc
      (by rw [hnames]; exact hex)]
    exact ⟨_, rfl, by rw [hnames]⟩

/-- C7 witness: the theorem applied to the base NR: a missing corpNum is
rejected 406 with names untouched, and a present corpNum stamps exactly
the approved name choice. -/
theorem C7_consume_preconditions_witness :
    (∃ e, requestsPatch 3 true none 777 888
        { state := some StateCd.CONSUMED } nrdBase = Except.error e ∧
      e.code = 406 ∧
      e.msg = "corpNum is required and cannot be empty." ∧
      e.nrd.names = nrdBase.names) ∧
    (∃ out, requestsPatch 3 true none 777 888
        { state := some StateCd.CONSUMED, corpNum := some "BC1234567" } nrdBase =
          Except.ok out ∧
      out.nrd.names = nrdBase.names.map (fun n =>
        if n.state ∈ consumable_name_states then
          { n with consumptionDate := some 888, corpNum := some "BC1234567" }
        else n)) :=
  ⟨(C7_consume_preconditions 3 none 777 888
      { state := some StateCd.CONSUMED } nrdBase rfl).1 (Or.inl rfl),
   (C7_consume_preconditions 3 none 777 888
      { state := some StateCd.CONSUMED, corpNum := some "BC1234567" } nrdBase
      rfl).2.2 (by simp)
      ⟨{ choice := 1, name := "ACME CO", state := "APPROVED",
         consumptionDate := none, corpNum := none }, by decide, by decide⟩⟩

/-- C8 counterexample: the unknown action token FOO is not rejected:
it is normalised to EDIT before validation ever sees it, and the PATCH
on a draft NR completes with EDIT semantics instead of failing with an
invalid-action error. -/
theorem C8_unknown_action_counterexample :
    patch_actions_has_value (pyUpper "FOO") = false ∧
    mapPatchAction "FOO" = "EDIT" ∧
    (∃ out, nrPatch "FOO" {} "t" 0 9 poZero nrDraft = Except.ok out ∧
      out.event = "PATCH [edit]") := by
  refine ⟨by decide, rfl, ⟨_, rfl, rfl⟩⟩

/-- C8 amended: an unknown action token is replaced by EDIT before
`validate_patch_request` runs, so the normalised action always passes
the known-action check and the request proceeds with EDIT semantics;
the invalid-action rejection branch is unreachable. -/
theorem C8_unknown_action_defaults_to_edit (raw : String)
    (payload : PatchPayload) (freshToken : String) (now svc : Nat)
    (po : PayOracle) (nr : NRModel)
    (hunknown : patch_actions_has_value (pyUpper raw) = false)
    (hps : payload.stateCd = none)
    (hed : is_request_editable nr.stateCd = true) :
    patch_actions_has_value (mapPatchAction raw) = true ∧
    nrPatch raw payload freshToken now svc po nr =
      Except.ok ⟨update_nr nr nr.stateCd payload.toRequestData,
        [], [], [], "PATCH [edit]"⟩ := by
  have hmap : mapPatchAction raw = "EDIT" := by
    unfold mapPatchAction
    simp [hunknown]
  have hed' : nr.stateCd ∈ request_editable_states := of_decide_eq_true hed
  constructor
  · rw [hmap]
    decide
  · unfold nrPatch
    rw [hmap]
    simp [validate_patch_request, PatchPayload.toRequestData, hps, hed',
      patch_actions_has_value, name_request_patch_actions, nr_patch_dispatch]

/-- C8 witness: the amended theorem applied to the unknown token FOO on
the draft NR. -/
theorem C8_unknown_action_defaults_to_edit_witness :
    patch_actions_has_value (pyUpper "FOO") = false ∧
    patch_actions_has_value (mapPatchAction "FOO") = true ∧
    nrPatch "FOO" {} "t" 0 9 poZero nrDraft =
      Except.ok ⟨update_nr nrDraft nrDraft.stateCd
        ({} : PatchPayload).toRequestData, [], [], [], "PATCH [edit]"⟩ :=
  ⟨by decide,
   (C8_unknown_action_defaults_to_edit "FOO" {} "t" 0 9 poZero nrDraft
      (by decide) rfl (by decide)).1,
   (C8_unknown_action_defaults_to_edit "FOO" {} "t" 0 9 poZero nrDraft
      (by decide) rfl (by decide)).2⟩

/-- Another INPROGRESS request of the same user whose previous state is
recorded as DRAFT. -/
def nrdOther : NRD :=
  { nrdBase with
    stateCd := StateCd.INPROGRESS,
    previousStateCd := some StateCd.DRAFT }

/-- A PUT payload passing every validation of `Request.put`. -/
def c9PutInput : RPutInput :=
  { nrNum := some "NR 7654321",
    state := some StateCd.DRAFT,
    names := [(1, "ACME CO")] }

/-- C9 counterexample: on the full-replace PUT path, an existing
INPROGRESS request of the same user whose previousStateCd is DRAFT is
demoted to HOLD, not to its recorded previous state as the claim says. -/
theorem C9_put_demote_counterexample :
    nrdOther.previousStateCd = some StateCd.DRAFT ∧
    requestsPut 3 true (some nrdOther) c9PutInput "NR 7654321" nrdBase =
      Except.ok ⟨{ nrdBase with stateCd := StateCd.DRAFT, userId := 3 },
        some { nrdOther with stateCd := StateCd.HOLD }, none⟩ ∧
    StateCd.HOLD ≠ StateCd.DRAFT :=
  ⟨rfl, rfl, by decide⟩

/-- The finish step for any target state other than CONSUMED returns
success carrying the demoted sibling unchanged. -/
lemma requestsPatchFinish_not_consumed (nowExpiry nowConsume : Nat)
    (input : RPatchInput) (nrd1 : NRD) (demoted : Option NRD)
    (h : input.state ≠ some StateCd.CONSUMED) :
    requestsPatchFinish nowExpiry nowConsume input nrd1 demoted =
      Except.ok ⟨applyExpiry nowExpiry (applyPrevStep input.previousStateCd nrd1),
        demoted,
        if input.state = some StateCd.APPROVED ∨ input.state = some StateCd.CONDITIONAL
            ∨ input.state = some StateCd.REJECTED then
          input.state.map (fun t =>
            ((applyExpiry nowExpiry (applyPrevStep input.previousStateCd nrd1)).nrNum, t))
        else none⟩ := by
  unfold requestsPatchFinish
  rw [if_neg h]

/-- C9 amended: both state-changing operations demote the caller's other
INPROGRESS request, but by different rules: the PATCH restores its
recorded previous state (clearing the record) and falls back to HOLD
only when none is recorded, while the full-replace PUT always sets it to
HOLD, ignoring previousStateCd. -/
theorem C9_demote_rules (user : Nat) (e : NRD) (nowExpiry nowConsume : Nat)
    (input : RPatchInput) (nrd : NRD) (s : StateCd)
    (hstate : input.state = some s) (hvalid : s ∈ VALID_STATES)
    (hncons : s ≠ StateCd.CONSUMED)
    (putInput : RPutInput) (resourceNr : String) (nrdP : NRD) (s2 : StateCd)
    (hnum : putInput.nrNum = none) (hstate2 : putInput.state = some s2)
    (hvalid2 : s2 ∈ VALID_STATES)
    (hc1 : nameChoiceExists putInput.names 1 = true)
    (hc23 : (!(nameChoiceExists putInput.names 2) &&
      nameChoiceExists putInput.names 3) = false) :
    (∃ out, requestsPatch user true (some e) nowExpiry nowConsume input nrd =
        Except.ok out ∧ out.demoted = some (demoteExisting e)) ∧
    (∃ out, requestsPut user true (some e) putInput resourceNr nrdP =
        Except.ok out ∧ out.demoted = some { e with stateCd := StateCd.HOLD }) ∧
    (∀ p, e.previousStateCd = some p →
      demoteExisting e = { e with stateCd := p, previousStateCd := none }) ∧
    (e.previousStateCd = none →
      demoteExisting e = { e with stateCd := StateCd.HOLD }) := by
  refine ⟨?_, ?_, ?_, ?_⟩
  · have hrun : requestsPatch user true (some e) nowExpiry nowConsume input nrd =
        requestsPatchFinish nowExpiry nowConsume input
          (applyStateStep user s nrd) (some (demoteExisting e)) := by
      unfold requestsPatch
      rw [hstate]
      simp [hvalid]
    rw [hrun, requestsPatchFinish_not_consumed nowExpiry nowConsume input
      (applyStateStep user s nrd) (some (demoteExisting e))
      (by rw [hstate]; exact fun hh => hncons (Option.some.inj hh))]
    exact ⟨_, rfl, rfl⟩
  · unfold requestsPut
    rw [hnum]
    unfold requestsPutChecked
    rw [hstate2]
    simp [hvalid2, hc1, hc23]
  · intro p hp
    unfold demoteExisting
    rw [hp]
  · intro hp
    unfold demoteExisting
    rw [hp]

/-- A PUT payload like `c9PutInput` but with no nrNum key. -/
def c9PutInputB : RPutInput :=
  { nrNum := none, state := some StateCd.DRAFT, names := [(1, "ACME CO")] }

/-- C9 witness: the amended theorem applied to the sibling whose
previous state is recorded as DRAFT: the PATCH restores DRAFT while the
PUT moves it to HOLD. -/
theorem C9_demote_rules_witness :
    (∃ out, requestsPatch 3 true (some nrdOther) 777 888
        { state := some StateCd.APPROVED } nrdBase = Except.ok out ∧
      out.demoted = some (demoteExisting nrdOther)) ∧
    (∃ out, requestsPut 3 true (some nrdOther) c9PutInputB "NR 7654321" nrdBase =
        Except.ok out ∧
      out.demoted = some { nrdOther with stateCd := StateCd.HOLD }) ∧
    demoteExisting nrdOther =
      { nrdOther with stateCd := StateCd.DRAFT, previousStateCd := none } := by
  obtain ⟨h1, h2, h3, _⟩ := C9_demote_rules 3 nrdOther 777 888
    { state := some StateCd.APPROVED } nrdBase StateCd.APPROVED rfl
    (by decide) (by decide) c9PutInputB "NR 7654321" nrdBase StateCd.DRAFT
    rfl rfl (by decide) (by decide) (by decide)
  exact ⟨h1, h2, h3 StateCd.DRAFT rfl⟩

/-- An NR awaiting payment. -/
def nrdPending : NRD :=
  { nrdBase with stateCd := StateCd.PENDING_PAYMENT }

/-- A payment-society payload naming the base NR. -/
def psInputFix : PSInput :=
  { nrNum := some "NR 7654321",
    corpNum := some "S-1234567",
    paymentStatusCode := some "COMPLETED",
    paymentFeeCode := some "REG",
    paymentType := some "CASH",
    paymentAmount := some 10000,
    paymentAction := some "CREATE" }

/-- C10: a successful payment-society POST for an existing NR saves the
payment row, and moves the NR from PENDING_PAYMENT to DRAFT exactly when
it was in PENDING_PAYMENT, leaving its state untouched otherwise. -/
theorem C10_payment_society_state (input : PSInput) (nrd : NRD)
    (formalNum : String) (n : String) (hn : input.nrNum = some n) :
    ∃ res, paymentSocietiesPost input (some nrd) formalNum = Except.ok res ∧
      res.ps.nrNum = formalNum ∧
      res.ps.paymentAmount = input.paymentAmount ∧
      (nrd.stateCd = StateCd.PENDING_PAYMENT → res.nrd.stateCd = StateCd.DRAFT) ∧
      (nrd.stateCd ≠ StateCd.PENDING_PAYMENT → res.nrd.stateCd = nrd.stateCd) := by
  unfold paymentSocietiesPost
  rw [hn]
  dsimp only
  refine ⟨_, rfl, rfl, rfl, ?_, ?_⟩
  · intro h
    simp [h]
  · intro h
    simp [h]

/-- C10 witness: the theorem applied to a PENDING_PAYMENT NR (moved to
DRAFT) and to an INPROGRESS NR (left untouched). -/
theorem C10_payment_society_state_witness :
    (∃ res, paymentSocietiesPost psInputFix (some nrdPending) "NR 9999999" =
        Except.ok res ∧ res.nrd.stateCd = StateCd.DRAFT) ∧
    (∃ res, paymentSocietiesPost psInputFix (some nrdBase) "NR 9999999" =
        Except.ok res ∧ res.nrd.stateCd = nrdBase.stateCd) := by
  constructor
  · obtain ⟨res, h1, _, _, h4, _⟩ := C10_payment_society_state psInputFix
      nrdPending "NR 9999999" "NR 7654321" rfl
    exact ⟨res, h1, h4 rfl⟩
  · obtain ⟨res, h1, _, _, _, h5⟩ := C10_payment_society_state psInputFix
      nrdBase "NR 9999999" "NR 7654321" rfl
    exact ⟨res, h1, h5 (by decide)⟩

end Namex
